import Mathlib

/-!
Verification of the LiMAX17048G fuel-gauge driver (LiMAX17048G.cpp / LiMAX17048G.h).

The driver talks to the MAX17048/MAX17049 over a two-wire bus. The only state
the claims depend on is the chip's two-byte CONFIG register at address 0x0C:
the high byte is the RCOMP "compensation" byte and the low byte is the
"status" byte (bit 7 sleep flag, bit 5 alert-fired flag, bits 4-0 the alert
threshold stored as the two's complement of the percent, five bits wide).

Shallow embedding: bytes are `Nat` values below 256; the CONFIG register is a
`Config` structure; each driver method that writes becomes a pure function
from the prior register state (plus its C++ arguments and the completion code
`ec` the transport returns for the closing write transaction) to the new
register state paired with the method's `uint8_t` return value. Reads do not
change the register. The C `~x` complement of a byte is modelled as `x ^^^ 255`
(identical on the low 8 bits, and every use in the source masks with `0x1F`
or smaller immediately afterwards).
-/

namespace LiMAX17048G

/-- Register addresses from LiMAX17048G.h. -/
def MAX1704X_ADDR : Nat := 0x36

def MAX1704X_VCELL_ADDR : Nat := 0x02

def MAX1704X_MODE_ADDR : Nat := 0x06

def MAX1704X_CONFIG_ADDR : Nat := 0x0C

def MAX1704X_ATHRD_ADDR : Nat := 0x0D

def MAX1704X_COMMAND_ADDR : Nat := 0xFE

/-- `enum gaugeType { MAX17048 = 1, MAX17049 = 2 }` from LiMAX17048G.h. -/
inductive gaugeType where
  | MAX17048
  | MAX17049
deriving DecidableEq

/-- The numeric value of the enumerator, as used by `getVoltage` (`* _ic`). -/
def gaugeType.toNat : gaugeType → Nat
  | .MAX17048 => 1
  | .MAX17049 => 2

/-- The two-byte CONFIG register: high byte RCOMP (`comp`), low byte `status`. -/
structure Config where
  comp : Nat
  status : Nat
deriving DecidableEq

/-- `getStatus`: reads one byte at MAX1704X_ATHRD_ADDR (0x0D), the low byte of
CONFIG, and returns it. -/
def getStatus (st : Config) : Nat := st.status

/-- The two bytes transferred by a 2-byte read starting at the CONFIG address
0x0C: first the RCOMP byte, then the status byte. -/
def configReadBytes (st : Config) : List Nat := [st.comp, st.status]

/-- `getCompensation` issues `Wire.requestFrom(MAX1704X_ADDR, 2)`. -/
def getCompensationBytesRequested : Nat := 2

/-- `getCompensation`: requests two bytes starting at the RCOMP address but
calls `Wire.read()` once, so it returns the first transferred byte and the
second (the status byte) is discarded. -/
def getCompensation (st : Config) : Nat := (configReadBytes st).headD 0

/-- The decoding `( ~status & 0x1F ) + 1` from `getAlertThreshold`. -/
def decodeThrd (s : Nat) : Nat := ((s ^^^ 255) &&& 0x1F) + 1

/-- `getAlertThreshold`: `return ( ~getStatus() & 0x1F ) + 1;`. -/
def getAlertThreshold (st : Config) : Nat := decodeThrd (getStatus st)

/-- `sleeping`: `return ( getStatus() & 0x80 ) == 0x80;`. -/
def sleeping (st : Config) : Bool := (getStatus st &&& 0x80) == 0x80

/-- The clamp at the top of `setAlertThreshold`:
`if ( thrd > 32 ) thrd = 32; else if ( thrd < 1 ) thrd = 1;`. -/
def clampThrd (thrd : Nat) : Nat :=
  if thrd > 32 then 32 else if thrd < 1 then 1 else thrd

/-- The encoding `thrd = ( ~thrd + 1 ) & 0x1F;` from `setAlertThreshold`
(two's complement of the percent, masked to five bits). -/
def encodeThrd (thrd : Nat) : Nat := ((thrd ^^^ 255) + 1) &&& 0x1F

/-- `setCompensation(comp)`: reads the status byte, then writes CONFIG as
(comp, unchanged status); returns `Wire.endTransmission()` verbatim. -/
def setCompensation (st : Config) (comp : Nat) (ec : Nat) : Config × Nat :=
  (⟨comp, getStatus st⟩, ec)

/-- `setAlertThreshold(thrd)`: clamps to [1,32], encodes, reads the two CONFIG
bytes keeping the RCOMP byte and `status & 0x80` (the sleep bit only), then
writes (comp, sleepBit | encoded); returns `Wire.endTransmission()` verbatim. -/
def setAlertThreshold (st : Config) (thrd : Nat) (ec : Nat) : Config × Nat :=
  let t := encodeThrd (clampThrd thrd)
  let comp := st.comp
  let sleepBit := st.status &&& 0x80
  (⟨comp, sleepBit ||| t⟩, ec)

/-- `clearAlertInterrupt()`: reads compensation and status, writes
(compensation, 0xDF & status); returns `Wire.endTransmission()` verbatim. -/
def clearAlertInterrupt (st : Config) (ec : Nat) : Config × Nat :=
  (⟨getCompensation st, 0xDF &&& getStatus st⟩, ec)

/-- `sleep()`: reads compensation and the DECODED threshold percent via
`getAlertThreshold()`, writes (compensation, 0x80 | threshold); returns
`Wire.endTransmission()` verbatim. -/
def sleep (st : Config) (ec : Nat) : Config × Nat :=
  (⟨getCompensation st, 0x80 ||| getAlertThreshold st⟩, ec)

/-- `wake()`: reads compensation and the DECODED threshold percent via
`getAlertThreshold()`, writes (compensation, 0x7F & threshold); returns
`Wire.endTransmission()` verbatim. -/
def wake (st : Config) (ec : Nat) : Config × Nat :=
  (⟨getCompensation st, 0x7F &&& getAlertThreshold st⟩, ec)

/-- A fixed two-byte command write to a register address: the bytes written
and the completion code returned by `Wire.endTransmission()`. -/
structure CommandWrite where
  memAddr : Nat
  highByte : Nat
  lowByte : Nat
  code : Nat
deriving DecidableEq

/-- `quickStart()`: writes 0x40 0x00 to the MODE register; returns
`Wire.endTransmission()` verbatim. CONFIG is untouched. -/
def quickStart (ec : Nat) : CommandWrite :=
  ⟨MAX1704X_MODE_ADDR, 0x40, 0x00, ec⟩

/-- `reset()`: writes 0x54 0x00 to the COMMAND register; returns
`Wire.endTransmission()` verbatim. CONFIG is untouched. -/
def reset (ec : Nat) : CommandWrite :=
  ⟨MAX1704X_COMMAND_ADDR, 0x54, 0x00, ec⟩

/-- The numeric conversion in `getVoltage`:
`( (Wire.read() << 4) + (Wire.read() >> 4) ) * 0.00125 * _ic`, with the two
bus bytes `msb` then `lsb` and the constant 0.00125 taken as the exact
rational 125/100000. -/
def getVoltage (msb lsb : Nat) (ic : gaugeType) : ℚ :=
  (((msb <<< 4) + (lsb >>> 4) : Nat) : ℚ) * (125 / 100000) * (ic.toNat : ℚ)

end LiMAX17048G

namespace LiMAX17048G

set_option maxRecDepth 100000

/-! ### Helper lemmas about the threshold encoding and bit masks -/

theorem clampThrd_bounds (t : Nat) : 1 ≤ clampThrd t ∧ clampThrd t ≤ 32 := by
  unfold clampThrd
  split_ifs <;> omega

theorem decodeThrd_eq_sub (s : Nat) : decodeThrd s = 32 - (s &&& 31) := by
  have h1 : (s ^^^ 255) &&& 31 = (s &&& 31) ^^^ (255 &&& 31) := Nat.and_xor_distrib_right
  have h2 : s &&& 31 ≤ 31 := Nat.and_le_right
  have key : ∀ m, m < 32 → m ^^^ (255 &&& 31) = 31 - m := by decide
  unfold decodeThrd
  rw [show (0x1F : Nat) = 31 from rfl, h1, key _ (by omega)]
  omega

theorem decodeThrd_bounds (s : Nat) : 1 ≤ decodeThrd s ∧ decodeThrd s ≤ 32 := by
  have h2 : s &&& 31 ≤ 31 := Nat.and_le_right
  rw [decodeThrd_eq_sub]
  omega

theorem sleepBit_cases (s : Nat) : s &&& 128 = 0 ∨ s &&& 128 = 128 := by
  have h := Nat.and_two_pow s 7
  norm_num at h
  rcases Bool.eq_false_or_eq_true (s.testBit 7) with h7 | h7 <;>
    simp [h7] at h <;> omega

theorem decode_encode_zero : ∀ c, c < 33 → 1 ≤ c →
    decodeThrd (0 ||| encodeThrd c) = c ∧ ((0 ||| encodeThrd c) &&& 128) = 0 := by
  decide

theorem decode_encode_sleep : ∀ c, c < 33 → 1 ≤ c →
    decodeThrd (128 ||| encodeThrd c) = c ∧ ((128 ||| encodeThrd c) &&& 128) = 128 := by
  decide

theorem or_mask_bounds : ∀ p, p < 33 →
    ((128 ||| p) &&& 128 = 128) ∧ (((127 &&& p) &&& 128) = 0) ∧
    (128 ||| p = 128 + p) ∧ (127 &&& p = p) := by
  decide

end LiMAX17048G

namespace LiMAX17048G

set_option maxRecDepth 100000

/-! ### Claim theorems -/

/-- Claim C3: for every percent in [1,32], the decoding applied by
`getAlertThreshold` (`(~status & 0x1F) + 1`) inverts the two's-complement
encoding applied by `setAlertThreshold` (`(~thrd + 1) & 0x1F`): reading the
threshold from a status byte holding the encoding of `p` yields `p`. -/
theorem claim_C3 (c p : Nat) (h1 : 1 ≤ p) (h2 : p ≤ 32) :
    getAlertThreshold ⟨c, encodeThrd p⟩ = p := by
  show decodeThrd (encodeThrd p) = p
  have h := (decode_encode_zero p (by omega) h1).1
  rwa [Nat.zero_or] at h

/-- Witness for C3 at percent 4 (the chip's default threshold). -/
theorem claim_C3_witness : getAlertThreshold ⟨0x97, encodeThrd 4⟩ = 4 :=
  claim_C3 0x97 4 (by decide) (by decide)

/-- Claim C10: for every status byte, `getAlertThreshold` returns a value in
[1,32]: `((~status) & 0x1F) + 1` is bounded by construction (proved here for
every natural status value, so in particular for all 256 byte values). -/
theorem claim_C10 (st : Config) :
    1 ≤ getAlertThreshold st ∧ getAlertThreshold st ≤ 32 := by
  unfold getAlertThreshold
  exact decodeThrd_bounds (getStatus st)

/-- Claim C8: `getCompensation` requests two bytes of the CONFIG register in
one transaction but returns only the first transferred byte (the RCOMP byte);
the second byte (the status byte) is discarded, for every register state. -/
theorem claim_C8 (c s s2 : Nat) :
    getCompensationBytesRequested = 2 ∧
    (configReadBytes ⟨c, s⟩).length = 2 ∧
    getCompensation ⟨c, s⟩ = c ∧
    getCompensation ⟨c, s⟩ = getCompensation ⟨c, s2⟩ :=
  ⟨rfl, rfl, rfl, rfl⟩

/-- Claim C9: every write-class operation (setCompensation, setAlertThreshold,
clearAlertInterrupt, sleep, wake, quickStart, reset) returns verbatim the
completion code `ec` produced by the transport when closing the write
transaction, for every such code, and reports failure (non-zero return)
exactly when `ec` is non-zero. -/
theorem claim_C9 (st : Config) (c t ec : Nat) :
    (setCompensation st c ec).2 = ec ∧
    (setAlertThreshold st t ec).2 = ec ∧
    (clearAlertInterrupt st ec).2 = ec ∧
    (sleep st ec).2 = ec ∧
    (wake st ec).2 = ec ∧
    (quickStart ec).code = ec ∧
    (reset ec).code = ec ∧
    ((setCompensation st c ec).2 ≠ 0 ↔ ec ≠ 0) ∧
    ((quickStart ec).code ≠ 0 ↔ ec ≠ 0) :=
  ⟨rfl, rfl, rfl, rfl, rfl, rfl, rfl, Iff.rfl, Iff.rfl⟩

end LiMAX17048G

namespace LiMAX17048G

set_option maxRecDepth 100000

/-- Claim C5: for every prior CONFIG state, `clearAlertInterrupt` writes back
the status byte ANDed with 0xDF — clearing bit 5 (alert-fired) while leaving
bit 7 (sleep) and bits 4-0 (threshold) unchanged — and writes the compensation
byte back unchanged, returning the transport completion code. -/
theorem claim_C5 (st : Config) (ec : Nat) :
    (clearAlertInterrupt st ec).1.comp = st.comp ∧
    (clearAlertInterrupt st ec).1.status = 0xDF &&& st.status ∧
    ((clearAlertInterrupt st ec).1.status &&& 32 = 0) ∧
    ((clearAlertInterrupt st ec).1.status &&& 128 = st.status &&& 128) ∧
    ((clearAlertInterrupt st ec).1.status &&& 31 = st.status &&& 31) ∧
    (clearAlertInterrupt st ec).2 = ec := by
  have h32 : (223 : Nat) &&& 32 = 0 := by decide
  have h128 : (223 : Nat) &&& 128 = 128 := by decide
  have h31 : (223 : Nat) &&& 31 = 31 := by decide
  refine ⟨rfl, rfl, ?_, ?_, ?_, rfl⟩
  · show (223 &&& st.status) &&& 32 = 0
    rw [Nat.and_comm 223 st.status, Nat.and_assoc, h32, Nat.and_zero]
  · show (223 &&& st.status) &&& 128 = st.status &&& 128
    rw [Nat.and_comm 223 st.status, Nat.and_assoc, h128]
  · show (223 &&& st.status) &&& 31 = st.status &&& 31
    rw [Nat.and_comm 223 st.status, Nat.and_assoc, h31]

/-- Claim C6: for every prior CONFIG state, `sleep()` followed by `sleeping()`
returns true and `wake()` followed by `sleeping()` returns false; `sleeping`
is true iff bit 7 of the status byte is set, and the status bytes written by
`sleep` and `wake` have bit 7 set and clear respectively. -/
theorem claim_C6 (st : Config) (ec : Nat) :
    sleeping (sleep st ec).1 = true ∧
    sleeping (wake st ec).1 = false ∧
    (sleeping st = ((st.status &&& 128) == 128)) ∧
    ((sleep st ec).1.status &&& 128 = 128) ∧
    ((wake st ec).1.status &&& 128 = 0) := by
  obtain ⟨hp1, hp2⟩ := decodeThrd_bounds (getStatus st)
  obtain ⟨h1, h2, h3, h4⟩ := or_mask_bounds (decodeThrd (getStatus st)) (by omega)
  refine ⟨?_, ?_, rfl, ?_, ?_⟩
  · show (((128 ||| decodeThrd (getStatus st)) &&& 128) == 128) = true
    rw [h1]
    rfl
  · show (((127 &&& decodeThrd (getStatus st)) &&& 128) == 128) = false
    rw [h2]
    rfl
  · exact h1
  · exact h2

end LiMAX17048G

namespace LiMAX17048G

set_option maxRecDepth 100000

/-- Claim C1 counterexample: the claim fails for `setAlertThreshold`. With
prior state (comp 0x97, status 0x20, i.e. the alert-fired bit 5 set),
`setAlertThreshold(4)` writes a status byte with bit 5 cleared, although bit 5
is not a bit that operation is defined to change (it is defined to change only
the threshold field, bits 4-0). -/
theorem claim_C1_counterexample :
    ((setAlertThreshold ⟨0x97, 0x20⟩ 4 0).1.status &&& 0x20) ≠
      (((⟨0x97, 0x20⟩ : Config).status) &&& 0x20) := by
  decide

/-- Claim C1 amended: `setCompensation` preserves the whole status byte;
`clearAlertInterrupt` preserves every bit except bit 5 (mask 0xDF);
`setAlertThreshold` preserves the compensation byte and bit 7 of the status
byte (but clears bits 6 and 5); `sleep` and `wake` preserve the compensation
byte only (they rewrite the whole status byte from the decoded threshold). -/
theorem claim_C1 (st : Config) (c t ec : Nat) :
    (setCompensation st c ec).1.status = st.status ∧
    (setCompensation st c ec).1.comp = c ∧
    (clearAlertInterrupt st ec).1.comp = st.comp ∧
    ((clearAlertInterrupt st ec).1.status &&& 0xDF = st.status &&& 0xDF) ∧
    (setAlertThreshold st t ec).1.comp = st.comp ∧
    ((setAlertThreshold st t ec).1.status &&& 128 = st.status &&& 128) ∧
    (sleep st ec).1.comp = st.comp ∧
    (wake st ec).1.comp = st.comp := by
  obtain ⟨hc1, hc2⟩ := clampThrd_bounds t
  have h223 : (223 : Nat) &&& 223 = 223 := by decide
  refine ⟨rfl, rfl, rfl, ?_, rfl, ?_, rfl, rfl⟩
  · show (223 &&& st.status) &&& 223 = st.status &&& 223
    rw [Nat.and_comm 223 st.status, Nat.and_assoc, h223]
  · show ((st.status &&& 128) ||| encodeThrd (clampThrd t)) &&& 128 = st.status &&& 128
    rcases sleepBit_cases st.status with hb | hb <;> rw [hb]
    · exact (decode_encode_zero (clampThrd t) (by omega) hc1).2
    · exact (decode_encode_sleep (clampThrd t) (by omega) hc1).2

/-- Claim C2 counterexample: with prior status 0x1C (encoded threshold field
28, i.e. 4 percent), `sleep()` writes a status byte whose threshold field
(bits 4-0) is 4, not the prior 28: the encoded threshold bits are NOT
preserved, because the code writes the decoded percent, not the encoding. -/
theorem claim_C2_counterexample :
    ((sleep ⟨0x97, 0x1C⟩ 0).1.status &&& 0x1F) ≠
      (((⟨0x97, 0x1C⟩ : Config).status) &&& 0x1F) := by
  decide

/-- Claim C2 amended: `sleep()` writes the compensation byte unchanged and a
status byte equal to 0x80 OR the DECODED threshold percent
`((~status) & 0x1F) + 1` (numerically `160 - (status & 0x1F)`), and `wake()`
writes the compensation byte unchanged and 0x7F AND that percent
(numerically `32 - (status & 0x1F)`); both return the transport code. The
decoded percent, not the prior encoded field, lands in bits 5-0. -/
theorem claim_C2 (st : Config) (ec : Nat) :
    (sleep st ec).1.comp = st.comp ∧
    (sleep st ec).1.status = 128 + (32 - (st.status &&& 31)) ∧
    (wake st ec).1.comp = st.comp ∧
    (wake st ec).1.status = 32 - (st.status &&& 31) ∧
    (sleep st ec).2 = ec ∧
    (wake st ec).2 = ec := by
  obtain ⟨hp1, hp2⟩ := decodeThrd_bounds (getStatus st)
  obtain ⟨h1, h2, h3, h4⟩ := or_mask_bounds (decodeThrd (getStatus st)) (by omega)
  refine ⟨rfl, ?_, rfl, ?_, rfl, rfl⟩
  · show 128 ||| decodeThrd (getStatus st) = 128 + (32 - (st.status &&& 31))
    rw [h3, decodeThrd_eq_sub]
    rfl
  · show 127 &&& decodeThrd (getStatus st) = 32 - (st.status &&& 31)
    rw [h4, decodeThrd_eq_sub]
    rfl

/-- Claim C4: for every input percent and every prior CONFIG state,
`setAlertThreshold` silently clamps the input to [1,32], a subsequent
`getAlertThreshold` returns exactly the clamped percent, and the compensation
byte and the sleep-flag bit (bit 7 of the status byte) are unchanged. -/
theorem claim_C4 (st : Config) (p ec : Nat) :
    1 ≤ clampThrd p ∧ clampThrd p ≤ 32 ∧
    getAlertThreshold (setAlertThreshold st p ec).1 = clampThrd p ∧
    (setAlertThreshold st p ec).1.comp = st.comp ∧
    ((setAlertThreshold st p ec).1.status &&& 128 = st.status &&& 128) := by
  obtain ⟨hc1, hc2⟩ := clampThrd_bounds p
  refine ⟨hc1, hc2, ?_, rfl, ?_⟩
  · show decodeThrd ((st.status &&& 128) ||| encodeThrd (clampThrd p)) = clampThrd p
    rcases sleepBit_cases st.status with hb | hb <;> rw [hb]
    · exact (decode_encode_zero (clampThrd p) (by omega) hc1).1
    · exact (decode_encode_sleep (clampThrd p) (by omega) hc1).1
  · show ((st.status &&& 128) ||| encodeThrd (clampThrd p)) &&& 128 = st.status &&& 128
    rcases sleepBit_cases st.status with hb | hb <;> rw [hb]
    · exact (decode_encode_zero (clampThrd p) (by omega) hc1).2
    · exact (decode_encode_sleep (clampThrd p) (by omega) hc1).2

/-- Claim C7: `getVoltage` converts the two big-endian bus bytes as
`(raw16 >> 4) * 0.00125 * variantMultiplier`, the multiplier being 1 for
MAX17048 and 2 for MAX17049; for bytes 0x80, 0x00 (raw16 = 0x8000) it returns
2.56 V on the MAX17048 and 5.12 V on the MAX17049. -/
theorem claim_C7 (msb lsb : Nat) (g : gaugeType) :
    getVoltage msb lsb g =
      ((((msb * 256 + lsb) >>> 4 : Nat)) : ℚ) * (125 / 100000) * (g.toNat : ℚ) ∧
    gaugeType.toNat .MAX17048 = 1 ∧
    gaugeType.toNat .MAX17049 = 2 ∧
    getVoltage 0x80 0x00 .MAX17048 = 256 / 100 ∧
    getVoltage 0x80 0x00 .MAX17049 = 512 / 100 := by
  have hshift : (msb <<< 4) + (lsb >>> 4) = (msb * 256 + lsb) >>> 4 := by
    simp only [Nat.shiftLeft_eq, Nat.shiftRight_eq_div_pow]
    norm_num
    omega
  have h2048 : ((0x80 <<< 4) + (0x00 >>> 4) : Nat) = 2048 := by decide
  refine ⟨?_, rfl, rfl, ?_, ?_⟩
  · unfold getVoltage
    rw [hshift]
  · unfold getVoltage
    rw [h2048]
    norm_num [gaugeType.toNat]
  · unfold getVoltage
    rw [h2048]
    norm_num [gaugeType.toNat]

end LiMAX17048G
